import Mathlib

/-!
Shallow embedding of the two Haystack components of the valyu-search-haystack
repository: `ValyuSearch` (src/src/valyu_haystack/components/valyu_search.py)
and `ValyuContentFetcher` (src/src/valyu_haystack/components/valyu_content_fetcher.py).

External API responses are modelled as explicit data (the mocked response the
component receives); the external SDK call itself is the identity on that data,
and each embedded `run` additionally reports how many API calls it issued
(for the search component) or the exact list of batches it sent (for the
fetcher), so that call-count claims can be stated.
-/

deriving instance DecidableEq for Except

namespace ValyuHaystack

/-- Python whitespace characters recognised by `str.strip()` (ASCII subset). -/
def isPySpace (c : Char) : Bool :=
  c = ' ' || c = '\t' || c = '\n' || c = '\r' || c = '\x0b' || c = '\x0c'

/-- Python `s.strip()`: remove leading and trailing whitespace. -/
def pyStrip (s : String) : String :=
  ⟨((s.data.dropWhile isPySpace).reverse.dropWhile isPySpace).reverse⟩

/-- Python slice `xs[:k]` for an `int` bound `k`: a non-negative `k` takes the
first `k` elements; a negative `k` drops the last `|k|` elements. -/
def pyTake (k : Int) (xs : List α) : List α :=
  if k < 0 then xs.take (xs.length - (-k).toNat) else xs.take k.toNat

/-- Python `x or y` for optional strings: `None` and `""` are falsy, so
`response.error or "Unknown error"` yields the fixed text exactly when the
error field is absent or empty. -/
def orUnknown : Option String → String
  | none => "Unknown error"
  | some e => if e = "" then "Unknown error" else e

/-! ### ValyuSearch data model -/

/-- One element of a structured-content list in a search result. Python
iterates the list and keeps only `dict` items, reading `item.get('key', '')`
and `item.get('value', '')`; a dict item is represented here by those two
projections (absent keys already defaulted to `""`), and any non-dict item
by `nonDict`. -/
inductive SItem
  | dictItem (key value : String)
  | nonDict
deriving DecidableEq

/-- The `content` field of a search result: either a plain string or a
structured list (`valyu_search.py` lines 110-119). -/
inductive SContent
  | ofString (s : String)
  | ofList (items : List SItem)
deriving DecidableEq

/-- One record of the external search API's `results` list
(response schema of spec section 6). -/
structure SearchResult where
  content : SContent
  title : String
  url : String
  description : Option String
  source : String
  relevance_score : ℚ
  price : ℚ
  length : Nat
  data_type : String
  image_url : Option String
deriving DecidableEq

/-- The external search API response: success flag, optional error, results. -/
structure SearchResponse where
  success : Bool
  error : Option String
  results : List SearchResult
deriving DecidableEq

/-- The `meta` mapping built for each search document
(`valyu_search.py` lines 123-133). -/
structure SearchMeta where
  title : String
  url : String
  description : String
  source : String
  relevance_score : ℚ
  price : ℚ
  length : Nat
  data_type : String
  image_url : Option String
deriving DecidableEq

/-- A Haystack `Document` produced by `ValyuSearch`. -/
structure SearchDoc where
  content : String
  meta : SearchMeta
deriving DecidableEq

/-- String coercion of a search result's content (`valyu_search.py` lines
110-122): a structured list becomes `"key: value"` lines joined by newlines
(non-dict items skipped); a plain string passes through `str` unchanged. -/
def renderContent : SContent → String
  | .ofString s => s
  | .ofList items =>
      String.intercalate "\n" (items.filterMap fun it =>
        match it with
        | .dictItem k v => some (k ++ ": " ++ v)
        | .nonDict => none)

/-- Build one `Document` from one search result (`valyu_search.py` lines
121-134). `description` is `result.description or ""`. -/
def resultToDoc (r : SearchResult) : SearchDoc :=
  { content := renderContent r.content
    meta := { title := r.title
              url := r.url
              description := r.description.getD ""
              source := r.source
              relevance_score := r.relevance_score
              price := r.price
              length := r.length
              data_type := r.data_type
              image_url := r.image_url } }

/-- Constructor settings of `ValyuSearch` used by `run`. `top_k` is a Python
`int` (no validation), hence `Int`. -/
structure SearchConfig where
  top_k : Int
  search_type : String
  relevance_threshold : ℚ
  max_price : Int
deriving DecidableEq

/-- `ValyuSearch._call_api` on a given response: raise `ComponentError` when
the success flag is false (message from `orUnknown`), otherwise map every
result to a document (`valyu_search.py` lines 101-143). -/
def searchCallApi (resp : SearchResponse) : Except String (List SearchDoc) :=
  if resp.success then .ok (resp.results.map resultToDoc)
  else .error ("Valyu API returned error: " ++ orUnknown resp.error)

/-- `ValyuSearch.run` (`valyu_search.py` lines 146-164). Returns the
`(documents, links)` payload (or the raised error) together with the number
of external API calls issued. `links` is computed from all fetched documents
and both lists are sliced with `[: self.top_k]`. -/
def searchRun (cfg : SearchConfig) (resp : SearchResponse) (query : String) :
    Except String (List SearchDoc × List String) × Nat :=
  if query = "" || pyStrip query = "" then (.ok ([], []), 0)
  else
    match searchCallApi resp with
    | .error e => (.error e, 1)
    | .ok documents =>
        let links := (documents.filter fun d => d.meta.url != "").map fun d => d.meta.url
        (.ok (pyTake cfg.top_k documents, pyTake cfg.top_k links), 1)

/-! ### ValyuContentFetcher data model -/

/-- The `content` field of a contents result: the code handles `str`, `int`
and `float`, coercing non-strings with `str()`
(`valyu_content_fetcher.py` lines 110-113). -/
inductive CContent
  | ofString (s : String)
  | ofInt (n : Int)
deriving DecidableEq

/-- `str()` coercion of a contents result's content. -/
def cContentToString : CContent → String
  | .ofString s => s
  | .ofInt n => toString n

/-- One record of the external content API's `results` list
(response schema of spec section 6). -/
structure ContentsResult where
  content : CContent
  url : String
  title : String
  length : Nat
  source : String
  data_type : String
deriving DecidableEq

/-- The external content API response. -/
structure ContentsResponse where
  success : Bool
  error : Option String
  results : List ContentsResult
deriving DecidableEq

/-- The `meta` mapping built for each fetched document
(`valyu_content_fetcher.py` lines 116-122). -/
structure FetchMeta where
  url : String
  title : String
  length : Nat
  source : String
  data_type : String
deriving DecidableEq

/-- A Haystack `Document` produced by `ValyuContentFetcher`. -/
structure FetchDoc where
  content : String
  meta : FetchMeta
deriving DecidableEq

/-- Build one `Document` from one contents result
(`valyu_content_fetcher.py` lines 110-124). -/
def contentsResultToDoc (r : ContentsResult) : FetchDoc :=
  { content := cContentToString r.content
    meta := { url := r.url
              title := r.title
              length := r.length
              source := r.source
              data_type := r.data_type } }

/-- `ValyuContentFetcher._call_api` on a given response
(`valyu_content_fetcher.py` lines 102-133): raise on a false success flag,
otherwise map every result to a document. -/
def fetchCallApi (resp : ContentsResponse) : Except String (List FetchDoc) :=
  if resp.success then .ok (resp.results.map contentsResultToDoc)
  else .error ("Valyu API returned error: " ++ orUnknown resp.error)

/-- Order-preserving deduplication with an explicit seen-set:
`list(dict.fromkeys(urls))` keeps the first occurrence of each element. -/
def dedupAux (seen : List String) : List String → List String
  | [] => []
  | x :: xs => if x ∈ seen then dedupAux seen xs else x :: dedupAux (x :: seen) xs

/-- `list(dict.fromkeys(urls))` (`valyu_content_fetcher.py` line 149). -/
def dedupFirstSeen (l : List String) : List String := dedupAux [] l

/-- The batching loop bounds `range(0, len(urls_to_fetch), 10)` with slice
`urls_to_fetch[i : i + 10]` (`valyu_content_fetcher.py` lines 157-158):
successive chunks of at most 10 elements. -/
def chunks10 : List α → List (List α)
  | [] => []
  | x :: xs => ((x :: xs).take 10) :: chunks10 (xs.drop 9)
termination_by l => l.length
decreasing_by
  simp only [List.length_drop, List.length_cons]
  omega

/-- The `try/except` body of the batch loop (`valyu_content_fetcher.py`
lines 159-164): a successful batch extends `fetched_documents`, a failing
batch is skipped and processing continues. -/
def fetchLoop (api : List String → ContentsResponse) : List (List String) → List FetchDoc
  | [] => []
  | b :: bs =>
      match fetchCallApi (api b) with
      | .ok docs => docs ++ fetchLoop api bs
      | .error _ => fetchLoop api bs

/-- The error `ValyuContentFetcher.run` can raise outside the guarded batch
loop: `dict.fromkeys(None)` raises `TypeError`. -/
inductive FetchRunError
  | typeError
deriving DecidableEq

/-- `ValyuContentFetcher.run` (`valyu_content_fetcher.py` lines 136-166);
`api` gives the response each batch receives. `urls` defaults to `None`
(`none`), in which case line 149 raises `TypeError` before anything else.
On success the payload is `(fetched_documents, batches actually sent)`. -/
def fetcherRun (api : List String → ContentsResponse) (urls : Option (List String)) :
    Except FetchRunError (List FetchDoc × List (List String)) :=
  match urls with
  | none => .error .typeError
  | some us =>
      let urls_to_fetch := dedupFirstSeen us
      if urls_to_fetch = [] then .ok ([], [])
      else .ok (fetchLoop api (chunks10 urls_to_fetch), chunks10 urls_to_fetch)

/-! ### Serialization (to_dict / from_dict)

The serialization hooks delegate to the host framework's `default_to_dict` /
`default_from_dict` and to the `Secret` abstraction. A serializable secret is
the environment-variable kind (the constructor default
`Secret.from_env_var("VALYU_API_KEY")`); its `to_dict` emits only the
descriptor `{"type": "env_var", "env_vars": [...], "strict": ...}` and never
the resolved value, which lives only in the process environment. -/

/-- An environment-variable backed `Secret`: the list of candidate variables
and the strict flag. The resolved value is not part of the object state that
serializes. -/
structure EnvVarSecret where
  env_vars : List String
  strict : Bool
deriving DecidableEq

/-- Resolve a secret against an environment: first variable that is set. -/
def resolveSecret (env : String → Option String) (s : EnvVarSecret) : Option String :=
  s.env_vars.findSome? env

/-- `Secret.to_dict()` output for an env-var secret: type tag, variable
names, strict flag — and no field for the resolved value. -/
structure SecretDict where
  stype : String
  env_vars : List String
  strict : Bool
deriving DecidableEq

/-- Serialize an env-var secret. -/
def EnvVarSecret.toDict (s : EnvVarSecret) : SecretDict :=
  ⟨"env_var", s.env_vars, s.strict⟩

/-- `deserialize_secrets_inplace`: rebuild the secret from its dict; only the
`env_var` type tag is accepted. -/
def secretFromDict (d : SecretDict) : Option EnvVarSecret :=
  if d.stype = "env_var" then some ⟨d.env_vars, d.strict⟩ else none

/-- The full constructor state of `ValyuSearch` that `to_dict` serializes
(`valyu_search.py` lines 62-75). -/
structure SearchInit where
  api_key : EnvVarSecret
  top_k : Int
  search_type : String
  relevance_threshold : ℚ
  max_price : Int
deriving DecidableEq

/-- `default_to_dict` output for `ValyuSearch`: the component's import path
plus the init parameters, with the secret replaced by its descriptor dict. -/
structure SearchDict where
  typeName : String
  api_key : SecretDict
  top_k : Int
  search_type : String
  relevance_threshold : ℚ
  max_price : Int
deriving DecidableEq

/-- `ValyuSearch.to_dict`. -/
def searchToDict (c : SearchInit) : SearchDict :=
  ⟨"valyu_haystack.components.valyu_search.ValyuSearch", c.api_key.toDict,
   c.top_k, c.search_type, c.relevance_threshold, c.max_price⟩

/-- `ValyuSearch.from_dict`: deserialize the secret in place, then rebuild
the component from the init parameters. -/
def searchFromDict (d : SearchDict) : Option SearchInit :=
  match secretFromDict d.api_key with
  | none => none
  | some k => some ⟨k, d.top_k, d.search_type, d.relevance_threshold, d.max_price⟩

/-- `response_length`: `"short" | "medium" | "large" | "max"` or an `int`. -/
inductive RespLength
  | named (s : String)
  | count (n : Int)
deriving DecidableEq

/-- `summary`: `bool`, custom string, or a schema dict. -/
inductive SummaryCfg
  | boolCfg (b : Bool)
  | strCfg (s : String)
  | dictCfg (entries : List (String × String))
deriving DecidableEq

/-- The full constructor state of `ValyuContentFetcher` that `to_dict`
serializes (`valyu_content_fetcher.py` lines 65-77). -/
structure FetcherInit where
  api_key : EnvVarSecret
  extract_effort : Option String
  response_length : Option RespLength
  summary : Option SummaryCfg
deriving DecidableEq

/-- `default_to_dict` output for `ValyuContentFetcher`. -/
structure FetcherDict where
  typeName : String
  api_key : SecretDict
  extract_effort : Option String
  response_length : Option RespLength
  summary : Option SummaryCfg
deriving DecidableEq

/-- `ValyuContentFetcher.to_dict`. -/
def fetcherToDict (c : FetcherInit) : FetcherDict :=
  ⟨"valyu_haystack.components.valyu_content_fetcher.ValyuContentFetcher",
   c.api_key.toDict, c.extract_effort, c.response_length, c.summary⟩

/-- `ValyuContentFetcher.from_dict`. -/
def fetcherFromDict (d : FetcherDict) : Option FetcherInit :=
  match secretFromDict d.api_key with
  | none => none
  | some k => some ⟨k, d.extract_effort, d.response_length, d.summary⟩

/-! ### Helper lemmas -/

theorem chunks10_length (l : List α) : (chunks10 l).length = (l.length + 9) / 10 := by
  induction l using chunks10.induct with
  | case1 => simp [chunks10]
  | case2 x xs ih =>
    rw [chunks10]
    simp only [List.length_cons, List.length_drop] at ih ⊢
    omega

theorem chunks10_batch_le (l : List α) : ∀ b ∈ chunks10 l, b.length ≤ 10 := by
  induction l using chunks10.induct with
  | case1 => simp [chunks10]
  | case2 x xs ih =>
    rw [chunks10]
    intro b hb
    rcases List.mem_cons.mp hb with rfl | hmem
    · simp only [List.length_take]
      omega
    · exact ih b hmem

theorem chunks10_flatten (l : List α) : (chunks10 l).flatten = l := by
  induction l using chunks10.induct with
  | case1 => simp [chunks10]
  | case2 x xs ih =>
    rw [chunks10, List.flatten_cons, ih]
    have hdrop : xs.drop 9 = (x :: xs).drop 10 := (List.drop_succ_cons).symm
    rw [hdrop, List.take_append_drop]

theorem dedupAux_sublist (seen l : List String) : List.Sublist (dedupAux seen l) l := by
  induction l generalizing seen with
  | nil => simp [dedupAux]
  | cons x xs ih =>
    by_cases h : x ∈ seen
    · rw [dedupAux, if_pos h]
      exact (ih seen).cons x
    · rw [dedupAux, if_neg h]
      exact (ih (x :: seen)).cons₂ x

theorem mem_dedupAux (x : String) (seen l : List String) :
    x ∈ dedupAux seen l ↔ x ∈ l ∧ x ∉ seen := by
  induction l generalizing seen with
  | nil => simp [dedupAux]
  | cons y ys ih =>
    by_cases h : y ∈ seen
    · rw [dedupAux, if_pos h, ih]
      simp only [List.mem_cons]
      constructor
      · rintro ⟨hx, hs⟩
        exact ⟨Or.inr hx, hs⟩
      · rintro ⟨rfl | hx, hs⟩
        · exact absurd h hs
        · exact ⟨hx, hs⟩
    · rw [dedupAux, if_neg h]
      simp only [List.mem_cons, ih]
      constructor
      · rintro (rfl | ⟨hx, hs⟩)
        · exact ⟨Or.inl rfl, h⟩
        · exact ⟨Or.inr hx, fun hc => hs (Or.inr hc)⟩
      · rintro ⟨rfl | hx, hs⟩
        · exact Or.inl rfl
        · by_cases hxy : x = y
          · exact Or.inl hxy
          · exact Or.inr ⟨hx, fun hc => hc.elim hxy hs⟩

theorem nodup_dedupAux (seen l : List String) : (dedupAux seen l).Nodup := by
  induction l generalizing seen with
  | nil => simp [dedupAux]
  | cons x xs ih =>
    by_cases h : x ∈ seen
    · rw [dedupAux, if_pos h]
      exact ih seen
    · rw [dedupAux, if_neg h]
      refine List.nodup_cons.mpr ⟨fun hc => ?_, ih (x :: seen)⟩
      exact ((mem_dedupAux x (x :: seen) xs).mp hc).2 (List.mem_cons_self x seen)

theorem dedupAux_congr (seen seen' l : List String) (h : ∀ y, y ∈ seen ↔ y ∈ seen') :
    dedupAux seen l = dedupAux seen' l := by
  induction l generalizing seen seen' with
  | nil => rfl
  | cons x xs ih =>
    by_cases hx : x ∈ seen
    · rw [dedupAux, if_pos hx, dedupAux, if_pos ((h x).mp hx)]
      exact ih seen seen' h
    · rw [dedupAux, if_neg hx, dedupAux, if_neg (fun hc => hx ((h x).mpr hc))]
      refine congrArg (List.cons x) (ih (x :: seen) (x :: seen') fun y => ?_)
      simp only [List.mem_cons]
      rw [h y]

theorem dedupAux_cons_seen (x : String) (seen l : List String) :
    dedupAux (x :: seen) l = dedupAux seen (l.filter fun y => y != x) := by
  induction l generalizing seen with
  | nil => rfl
  | cons y ys ih =>
    by_cases hyx : y = x
    · subst hyx
      rw [dedupAux, if_pos (List.mem_cons_self y seen)]
      simpa [List.filter_cons] using ih seen
    · have hfil : List.filter (fun z => z != x) (y :: ys) =
          y :: List.filter (fun z => z != x) ys := by
        simp [List.filter_cons, hyx]
      by_cases hys : y ∈ seen
      · rw [dedupAux, if_pos (List.mem_cons.mpr (Or.inr hys)), hfil, dedupAux, if_pos hys]
        exact ih seen
      · have hnx : y ∉ x :: seen := by
          simp [List.mem_cons, hyx, hys]
        rw [dedupAux, if_neg hnx, hfil, dedupAux, if_neg hys]
        have hswap : dedupAux (y :: x :: seen) ys = dedupAux (x :: y :: seen) ys := by
          refine dedupAux_congr _ _ _ fun z => ?_
          simp only [List.mem_cons]
          tauto
        rw [hswap, ih (y :: seen)]

theorem dedupFirstSeen_cons (x : String) (xs : List String) :
    dedupFirstSeen (x :: xs) = x :: dedupFirstSeen (xs.filter fun y => y != x) := by
  rw [dedupFirstSeen, dedupAux, if_neg (List.not_mem_nil x)]
  exact congrArg (List.cons x) (dedupAux_cons_seen x [] xs)

theorem fetchLoop_cons_ok (api : List String → ContentsResponse) (b : List String)
    (bs : List (List String)) (ds : List FetchDoc) (h : fetchCallApi (api b) = .ok ds) :
    fetchLoop api (b :: bs) = ds ++ fetchLoop api bs := by
  rw [fetchLoop, h]

theorem fetchLoop_cons_error (api : List String → ContentsResponse) (b : List String)
    (bs : List (List String)) (e : String) (h : fetchCallApi (api b) = .error e) :
    fetchLoop api (b :: bs) = fetchLoop api bs := by
  rw [fetchLoop, h]

theorem sublist_fetchLoop (api : List String → ContentsResponse)
    (bs : List (List String)) (b : List String) (ds : List FetchDoc)
    (hb : b ∈ bs) (hok : fetchCallApi (api b) = .ok ds) : List.Sublist ds (fetchLoop api bs) := by
  induction bs with
  | nil => cases hb
  | cons c cs ih =>
    rcases List.mem_cons.mp hb with rfl | hmem
    · rw [fetchLoop_cons_ok api b cs ds hok]
      exact List.sublist_append_left ds _
    · cases hc : fetchCallApi (api c) with
      | ok docs =>
        rw [fetchLoop_cons_ok api c cs docs hc]
        exact (ih hmem).trans (List.sublist_append_right _ _)
      | error e =>
        rw [fetchLoop_cons_error api c cs e hc]
        exact ih hmem

theorem fetcherRun_some_eq (api : List String → ContentsResponse) (l : List String) :
    fetcherRun api (some l) =
      .ok (fetchLoop api (chunks10 (dedupFirstSeen l)), chunks10 (dedupFirstSeen l)) := by
  by_cases h : dedupFirstSeen l = []
  · simp [fetcherRun, h, chunks10, fetchLoop]
  · simp [fetcherRun, h]

theorem searchRun_empty_eq (cfg : SearchConfig) (resp : SearchResponse) (query : String)
    (hq : pyStrip query = "") : searchRun cfg resp query = (.ok ([], []), 0) := by
  simp [searchRun, hq]

theorem searchRun_error_eq (cfg : SearchConfig) (resp : SearchResponse) (query : String)
    (hq : pyStrip query ≠ "") (hs : resp.success = false) :
    searchRun cfg resp query =
      (.error ("Valyu API returned error: " ++ orUnknown resp.error), 1) := by
  have hq0 : query ≠ "" := fun h => hq (by rw [h]; rfl)
  simp [searchRun, searchCallApi, hq0, hq, hs]

theorem searchRun_success_eq (cfg : SearchConfig) (resp : SearchResponse) (query : String)
    (hq : pyStrip query ≠ "") (hs : resp.success = true) :
    searchRun cfg resp query =
      (.ok (pyTake cfg.top_k (resp.results.map resultToDoc),
            pyTake cfg.top_k
              (((resp.results.map resultToDoc).filter fun d => d.meta.url != "").map
                fun d => d.meta.url)), 1) := by
  have hq0 : query ≠ "" := fun h => hq (by rw [h]; rfl)
  simp [searchRun, searchCallApi, hq0, hq, hs]

theorem pyTake_nonneg (k : Int) (hk : 0 ≤ k) (xs : List α) : pyTake k xs = xs.take k.toNat := by
  rw [pyTake, if_neg (not_lt.mpr hk)]

theorem length_pyTake_le (k : Int) (hk : 0 ≤ k) (xs : List α) :
    ((pyTake k xs).length : Int) ≤ k := by
  rw [pyTake_nonneg k hk]
  have h1 : (xs.take k.toNat).length ≤ k.toNat := by
    simp [List.length_take]
  calc ((xs.take k.toNat).length : Int) ≤ (k.toNat : Int) := by exact_mod_cast h1
    _ = k := Int.toNat_of_nonneg hk

theorem pyTake_map (k : Int) (f : α → β) (xs : List α) :
    pyTake k (xs.map f) = (pyTake k xs).map f := by
  rw [pyTake, pyTake, List.length_map]
  split
  · rw [List.map_take]
  · rw [List.map_take]

/-! ### Concrete data used by witnesses and counterexamples -/

/-- A plain search result with url `"u1"`. -/
def rA : SearchResult :=
  ⟨.ofString "contentA", "titleA", "u1", some "descA", "web", 1, 2, 8, "unstructured", none⟩

/-- A plain search result with url `"u2"`. -/
def rB : SearchResult :=
  ⟨.ofString "contentB", "titleB", "u2", none, "web", 1, 2, 8, "unstructured", some "img"⟩

/-- A search result whose url is the empty string. -/
def rNoUrl : SearchResult :=
  ⟨.ofString "contentC", "titleC", "", none, "web", 1, 2, 8, "unstructured", none⟩

/-- A search result with structured (list) content. -/
def rStruct : SearchResult :=
  ⟨.ofList [.dictItem "a" "1", .nonDict, .dictItem "b" "2"], "titleS", "u3", none,
   "proprietary", 1, 2, 8, "structured", none⟩

/-- Twelve input URLs: eleven distinct ones plus a repeat of the first. -/
def urlsW : List String :=
  ["u1", "u2", "u3", "u4", "u5", "u6", "u7", "u8", "u9", "u10", "u11", "u1"]

/-- The first batch the fetcher sends for `urlsW`: the first ten unique URLs. -/
def batch1W : List String :=
  ["u1", "u2", "u3", "u4", "u5", "u6", "u7", "u8", "u9", "u10"]

/-- A contents result for the second batch. -/
def crW : ContentsResult := ⟨.ofString "body", "u11", "t", 4, "web", "unstructured"⟩

/-- A batch oracle: the ten-URL batch gets a failure response, any other
batch a one-result success response. -/
def apiW : List String → ContentsResponse :=
  fun bs => if bs.length = 10 then ⟨false, some "boom", []⟩ else ⟨true, none, [crW]⟩

theorem chunks10_urlsW : chunks10 (dedupFirstSeen urlsW) = [batch1W, ["u11"]] := by
  have h : dedupFirstSeen urlsW = batch1W ++ ["u11"] := by decide
  rw [h]
  simp [chunks10, batch1W]

/-! ### Claims -/

/-- C1: for every input URL list, `ValyuContentFetcher.run` deduplicates the
list keeping the first occurrence of each URL (order-preserving sublist with
no duplicates and the same members, removing later repeats of the head), and
then issues exactly `⌈unique_count / 10⌉` batched API calls, each batch of at
most 10 URLs, the batches covering the deduplicated list in order. -/
theorem fetcherRun_dedup_batches (api : List String → ContentsResponse) (l : List String) :
    fetcherRun api (some l) =
      .ok (fetchLoop api (chunks10 (dedupFirstSeen l)), chunks10 (dedupFirstSeen l)) ∧
    (chunks10 (dedupFirstSeen l)).length = ((dedupFirstSeen l).length + 9) / 10 ∧
    (∀ b ∈ chunks10 (dedupFirstSeen l), b.length ≤ 10) ∧
    (chunks10 (dedupFirstSeen l)).flatten = dedupFirstSeen l ∧
    List.Sublist (dedupFirstSeen l) l ∧
    (dedupFirstSeen l).Nodup ∧
    (∀ x, x ∈ dedupFirstSeen l ↔ x ∈ l) ∧
    (∀ x xs, dedupFirstSeen (x :: xs) = x :: dedupFirstSeen (xs.filter fun y => y != x)) := by
  refine ⟨fetcherRun_some_eq api l, chunks10_length _, chunks10_batch_le _,
    chunks10_flatten _, dedupAux_sublist [] l, nodup_dedupAux [] l, fun x => ?_,
    dedupFirstSeen_cons⟩
  rw [dedupFirstSeen, mem_dedupAux]
  simp

/-- C3: for a non-blank query and a response whose success flag is false and
which carries a non-empty API error message, `ValyuSearch.run` raises a
`ComponentError` whose message embeds that API-supplied message, and the
external API is called exactly once (the error propagates, no retry). -/
theorem searchRun_api_failure (cfg : SearchConfig) (resp : SearchResponse) (query : String)
    (e : String) (hq : pyStrip query ≠ "") (hs : resp.success = false)
    (he : resp.error = some e) (hne : e ≠ "") :
    searchRun cfg resp query = (.error ("Valyu API returned error: " ++ e), 1) := by
  have h := searchRun_error_eq cfg resp query hq hs
  rw [he] at h
  simpa [orUnknown, hne] using h

/-- C3 witness: query `"test"` against an explicit failure response. -/
theorem searchRun_api_failure_witness :
    searchRun ⟨10, "all", 0, 100⟩ ⟨false, some "boom", []⟩ "test" =
      (.error ("Valyu API returned error: " ++ "boom"), 1) :=
  searchRun_api_failure ⟨10, "all", 0, 100⟩ ⟨false, some "boom", []⟩ "test" "boom"
    (by decide) (by decide) (by decide) (by decide)

/-- C4: if some batch call of `ValyuContentFetcher.run` fails while another
batch succeeds with documents `ds`, the run still returns normally and `ds`
appears (in order) in the returned documents: a batch failure never aborts
the other batches. -/
theorem fetcherRun_skips_failed_batch (api : List String → ContentsResponse)
    (l : List String) (b : List String) (ds : List FetchDoc) (b' : List String) (e : String)
    (hb : b ∈ chunks10 (dedupFirstSeen l))
    (hok : fetchCallApi (api b) = .ok ds)
    (hb' : b' ∈ chunks10 (dedupFirstSeen l))
    (hfail : fetchCallApi (api b') = .error e) :
    ∃ docs calls, fetcherRun api (some l) = .ok (docs, calls) ∧ List.Sublist ds docs :=
  ⟨_, _, fetcherRun_some_eq api l, sublist_fetchLoop api _ b ds hb hok⟩

/-- C4 witness: twelve URLs (eleven unique) make two batches; the first
batch's call fails, the second succeeds, and its document survives. -/
theorem fetcherRun_skips_failed_batch_witness :
    ∃ docs calls, fetcherRun apiW (some urlsW) = .ok (docs, calls) ∧
      List.Sublist [contentsResultToDoc crW] docs :=
  fetcherRun_skips_failed_batch apiW urlsW ["u11"] [contentsResultToDoc crW] batch1W "Valyu API returned error: boom"
    (by rw [chunks10_urlsW]; decide) (by decide)
    (by rw [chunks10_urlsW]; decide) (by decide)

/-- C5: a query that is empty or whitespace-only (its Python `strip()` is
empty) makes `ValyuSearch.run` return `documents=[]` and `links=[]` without
raising and with zero external API calls. -/
theorem searchRun_empty_query (cfg : SearchConfig) (resp : SearchResponse) (query : String)
    (hq : pyStrip query = "") : searchRun cfg resp query = (.ok ([], []), 0) :=
  searchRun_empty_eq cfg resp query hq

/-- C5 witness: a whitespace-only query. -/
theorem searchRun_empty_query_witness :
    searchRun ⟨10, "all", 0, 100⟩ ⟨true, none, [rA]⟩ " \t\n " = (.ok ([], []), 0) :=
  searchRun_empty_query ⟨10, "all", 0, 100⟩ ⟨true, none, [rA]⟩ " \t\n " (by decide)

/-- C9: calling `ValyuContentFetcher.run` with `urls=None` (the default)
raises `TypeError` at the deduplication step `list(dict.fromkeys(None))`,
for every batch oracle, and in particular never returns a documents list. -/
theorem fetcherRun_none_typeError (api : List String → ContentsResponse) :
    fetcherRun api none = .error .typeError ∧
    ∀ docs calls, fetcherRun api none ≠ .ok (docs, calls) := by
  refine ⟨rfl, ?_⟩
  intro docs calls h
  simp [fetcherRun] at h

/-- A config with `top_k = 1` used at concrete inputs. -/
def cfgOne : SearchConfig := ⟨1, "all", 0, 100⟩

/-- A successful two-result response with urls `"u1"` and `"u2"`. -/
def respAB : SearchResponse := ⟨true, none, [rA, rB]⟩

/-- A successful one-result response with structured content. -/
def respS : SearchResponse := ⟨true, none, [rStruct]⟩

/-- C2 counterexample: `top_k` is an unvalidated Python `int`; with
`top_k = -1` the slice `documents[:top_k]` drops the last element, so for a
two-result success response the returned documents list has one element —
more than `top_k = -1` — refuting "at most top_k elements" as stated. -/
theorem searchRun_top_k_counterexample :
    (searchRun ⟨-1, "all", 0, 100⟩ ⟨true, none, [rA, rB]⟩ "q").1 =
      .ok ([resultToDoc rA], ["u1"]) ∧
    ¬ ((([resultToDoc rA] : List SearchDoc).length : Int) ≤
        (⟨-1, "all", 0, 100⟩ : SearchConfig).top_k) := by
  constructor
  · decide
  · decide

/-- C2 (amended): for every configuration whose `top_k` is non-negative,
whenever `ValyuSearch.run` returns normally, the returned `documents` and
`links` lists each contain at most `top_k` elements. -/
theorem searchRun_truncates_nonneg_top_k (cfg : SearchConfig) (resp : SearchResponse)
    (query : String) (docs : List SearchDoc) (links : List String) (n : Nat)
    (hk : 0 ≤ cfg.top_k)
    (h : searchRun cfg resp query = (.ok (docs, links), n)) :
    (docs.length : Int) ≤ cfg.top_k ∧ (links.length : Int) ≤ cfg.top_k := by
  by_cases hq : pyStrip query = ""
  · rw [searchRun_empty_eq cfg resp query hq] at h
    simp only [Prod.mk.injEq, Except.ok.injEq] at h
    obtain ⟨⟨rfl, rfl⟩, -⟩ := h
    constructor <;> simpa using hk
  · cases hs : resp.success with
    | false =>
      rw [searchRun_error_eq cfg resp query hq hs] at h
      simp at h
    | true =>
      rw [searchRun_success_eq cfg resp query hq hs] at h
      simp only [Prod.mk.injEq, Except.ok.injEq] at h
      obtain ⟨⟨rfl, rfl⟩, -⟩ := h
      exact ⟨length_pyTake_le cfg.top_k hk _, length_pyTake_le cfg.top_k hk _⟩

/-- C2 witness: `top_k = 1` against a two-result response. -/
theorem searchRun_truncates_witness :
    (([resultToDoc rA] : List SearchDoc).length : Int) ≤ cfgOne.top_k ∧
    ((["u1"] : List String).length : Int) ≤ cfgOne.top_k :=
  searchRun_truncates_nonneg_top_k cfgOne respAB "q" [resultToDoc rA] ["u1"] 1
    (by decide) (by decide)

/-- C6: `to_dict` followed by `from_dict` reconstructs the component's
configuration exactly (same secret descriptor, `top_k`, `search_type`,
`relevance_threshold`, `max_price` for `ValyuSearch`; same `extract_effort`,
`response_length`, `summary` for `ValyuContentFetcher`), and the serialized
secret entry is exactly the env-var descriptor — the serialized form is built
from the descriptor alone, so the resolved key (a value of the process
environment, not of the configuration) never appears in it. -/
theorem serialization_roundtrip (c : SearchInit) (f : FetcherInit) :
    searchFromDict (searchToDict c) = some c ∧
    fetcherFromDict (fetcherToDict f) = some f ∧
    (searchToDict c).api_key = ⟨"env_var", c.api_key.env_vars, c.api_key.strict⟩ ∧
    (fetcherToDict f).api_key = ⟨"env_var", f.api_key.env_vars, f.api_key.strict⟩ := by
  refine ⟨?_, ?_, rfl, rfl⟩
  · simp [searchToDict, searchFromDict, secretFromDict, EnvVarSecret.toDict]
  · simp [fetcherToDict, fetcherFromDict, secretFromDict, EnvVarSecret.toDict]

/-- C7 counterexample: with `top_k = 1` and a response whose first result has
an empty url and whose second has url `"u2"`, the returned documents list is
just the first document (empty url), while the returned links list is
`["u2"]` — not the urls of the returned documents (`links` is computed from
all fetched documents before truncation). -/
theorem searchRun_links_counterexample :
    (searchRun ⟨1, "all", 0, 100⟩ ⟨true, none, [rNoUrl, rB]⟩ "q").1 =
      .ok ([resultToDoc rNoUrl], ["u2"]) ∧
    ["u2"] ≠ (([resultToDoc rNoUrl].filter fun d => d.meta.url != "").map
      fun d => d.meta.url) := by
  constructor
  · decide
  · decide

/-- C7 (amended): on a successful response, `links` is the list of non-empty
urls of all documents parsed from the response — computed before document
truncation — itself truncated to `top_k`; when every result's url is
non-empty this coincides with the urls of the returned documents in order. -/
theorem searchRun_links_amended (cfg : SearchConfig) (resp : SearchResponse)
    (query : String) (docs : List SearchDoc) (links : List String) (n : Nat)
    (hq : pyStrip query ≠ "") (hs : resp.success = true)
    (h : searchRun cfg resp query = (.ok (docs, links), n)) :
    docs = pyTake cfg.top_k (resp.results.map resultToDoc) ∧
    links = pyTake cfg.top_k
      (((resp.results.map resultToDoc).filter fun d => d.meta.url != "").map
        fun d => d.meta.url) ∧
    ((∀ r ∈ resp.results, r.url ≠ "") → links = docs.map fun d => d.meta.url) := by
  rw [searchRun_success_eq cfg resp query hq hs] at h
  simp only [Prod.mk.injEq, Except.ok.injEq] at h
  obtain ⟨⟨rfl, rfl⟩, -⟩ := h
  refine ⟨rfl, rfl, fun hall => ?_⟩
  have hfil : (resp.results.map resultToDoc).filter (fun d => d.meta.url != "")
      = resp.results.map resultToDoc := by
    rw [List.filter_eq_self]
    intro d hd
    obtain ⟨r, hr, rfl⟩ := List.mem_map.mp hd
    simpa [resultToDoc] using hall r hr
  rw [hfil, pyTake_map]

/-- C7 witness: two results, both with non-empty urls, `top_k = 1`. -/
theorem searchRun_links_amended_witness :
    [resultToDoc rA] = pyTake cfgOne.top_k (respAB.results.map resultToDoc) ∧
    ["u1"] = pyTake cfgOne.top_k
      (((respAB.results.map resultToDoc).filter fun d => d.meta.url != "").map
        fun d => d.meta.url) ∧
    ((∀ r ∈ respAB.results, r.url ≠ "") →
      ["u1"] = [resultToDoc rA].map fun d => d.meta.url) :=
  searchRun_links_amended cfgOne respAB "q" [resultToDoc rA] ["u1"] 1
    (by decide) (by decide) (by decide)

/-- C8: on a successful response, `ValyuSearch._call_api` produces one
document per result record; the `i`-th document's content is the result's
content coerced to a string (structured lists rendered as `key: value`
lines), and its metadata holds exactly the result's title, url, description
(defaulted to `""` when absent), source, relevance score, price, length,
data type and image url. -/
theorem searchCallApi_result_mapping (resp : SearchResponse) (hs : resp.success = true)
    (i : Nat) (hi : i < resp.results.length) :
    ∃ docs, searchCallApi resp = .ok docs ∧ docs.length = resp.results.length ∧
      docs[i]? = some
        { content := renderContent (resp.results[i]).content
          meta := { title := (resp.results[i]).title
                    url := (resp.results[i]).url
                    description := ((resp.results[i]).description).getD ""
                    source := (resp.results[i]).source
                    relevance_score := (resp.results[i]).relevance_score
                    price := (resp.results[i]).price
                    length := (resp.results[i]).length
                    data_type := (resp.results[i]).data_type
                    image_url := (resp.results[i]).image_url } } := by
  refine ⟨resp.results.map resultToDoc, by simp [searchCallApi, hs], by simp, ?_⟩
  simp [List.getElem?_eq_getElem, hi, resultToDoc]

/-- C8 witness: a one-result response whose content is a structured list. -/
theorem searchCallApi_result_mapping_witness :
    ∃ docs, searchCallApi respS = .ok docs ∧ docs.length = respS.results.length ∧
      docs[0]? = some (resultToDoc rStruct) :=
  searchCallApi_result_mapping respS rfl 0 (by decide)

/-- C10: when a response's success flag is false and its error field is
absent or the empty string (both falsy in Python), each component raises a
`ComponentError` whose message is exactly
`"Valyu API returned error: Unknown error"`. -/
theorem api_error_unknown_message (resp : SearchResponse) (cresp : ContentsResponse)
    (hs : resp.success = false) (he : resp.error = none ∨ resp.error = some "")
    (hcs : cresp.success = false) (hce : cresp.error = none ∨ cresp.error = some "") :
    searchCallApi resp = .error "Valyu API returned error: Unknown error" ∧
    fetchCallApi cresp = .error "Valyu API returned error: Unknown error" := by
  constructor
  · rcases he with h | h <;> simp [searchCallApi, hs, h, orUnknown]
  · rcases hce with h | h <;> simp [fetchCallApi, hcs, h, orUnknown]

/-- C10 witness: an absent error field for the search component and an empty
error string for the fetcher. -/
theorem api_error_unknown_message_witness :
    searchCallApi ⟨false, none, []⟩ = .error "Valyu API returned error: Unknown error" ∧
    fetchCallApi ⟨false, some "", []⟩ = .error "Valyu API returned error: Unknown error" :=
  api_error_unknown_message ⟨false, none, []⟩ ⟨false, some "", []⟩
    rfl (Or.inl rfl) rfl (Or.inr rfl)

end ValyuHaystack
